import Mathlib

/-!
Verification model of `pollenwall` (src/src/main.rs).

The repository is a single-binary event loop that subscribes to the
`processing_pollen` and `done_pollen` IPFS pubsub topics, tracks jobs
("pollens") in an in-memory `HashMap`, resolves each job's latest output
image, persists it to `~/.pollen_wall` and sets it as the wallpaper.

Everything below is a shallow embedding of that program.  Pure helpers
(`decode_msg`, `get_current_topic`, `get_the_latest_image_according_to_numbering`)
are translated directly.  The effectful parts (the main event loop,
`save_pollen`, `clear_previous_pollens`) are translated to pure functions over
an explicit state plus an environment record carrying the results of the
remote calls an event performs, and return the list of I/O effects performed.
-/

namespace PollenWall

/-! ## String helpers (Rust `str::contains`) -/

/-- Component of `str::contains`: does `pat` occur at the start of the list? -/
def listStartsWith : List Char → List Char → Bool
  | _, [] => true
  | [], _ :: _ => false
  | a :: as, b :: bs => a == b && listStartsWith as bs

/-- Rust `str::contains`: does `pat` occur as a contiguous sublist of `hay`? -/
def listContainsSub : List Char → List Char → Bool
  | [], pat => pat.isEmpty
  | a :: as, pat => listStartsWith (a :: as) pat || listContainsSub as pat

/-- Rust `str::contains` on strings. -/
def strContains (s pat : String) : Bool := listContainsSub s.data pat.data

/-- Rust `str::parse::<usize>()` on a string of ASCII digits (base-10 value).
The Rust call would return `Err` on overflow or non-ASCII-digit numerics; the
callers in this program unwrap it, and all claims use small ASCII-digit
inputs, so the value is modelled as an unbounded `Nat`. -/
def parseDigits (s : List Char) : Nat :=
  s.foldl (fun a c => a * 10 + (c.toNat - 48)) 0

/-! ## `decode_msg`: multibase `Base64Pad` decoding followed by
`String::from_utf8` (src/src/main.rs lines 498-501). -/

/-- Value of one character of the RFC 4648 base64 alphabet. -/
def base64Val (c : Char) : Option Nat :=
  if 65 ≤ c.toNat ∧ c.toNat ≤ 90 then some (c.toNat - 65)
  else if 97 ≤ c.toNat ∧ c.toNat ≤ 122 then some (c.toNat - 97 + 26)
  else if 48 ≤ c.toNat ∧ c.toNat ≤ 57 then some (c.toNat - 48 + 52)
  else if c = '+' then some 62
  else if c = '/' then some 63
  else none

/-- Padded base64 (`Base::Base64Pad`, i.e. `data_encoding::BASE64`) decoding:
blocks of four characters, padding `=` only at the end, canonical trailing
bits, length a multiple of four.  Returns the decoded bytes. -/
def b64Blocks : List Char → Option (List Nat)
  | [] => some []
  | c1 :: c2 :: c3 :: c4 :: rest =>
    match base64Val c1, base64Val c2 with
    | some v1, some v2 =>
      if c3 = '=' then
        if c4 = '=' ∧ rest = [] ∧ v2 % 16 = 0 then
          some [v1 * 4 + v2 / 16]
        else none
      else
        match base64Val c3 with
        | some v3 =>
          if c4 = '=' then
            if rest = [] ∧ v3 % 4 = 0 then
              some [v1 * 4 + v2 / 16, (v2 % 16) * 16 + v3 / 4]
            else none
          else
            match base64Val c4 with
            | some v4 =>
              (b64Blocks rest).map
                (fun bs => (v1 * 4 + v2 / 16) :: ((v2 % 16) * 16 + v3 / 4) ::
                  ((v3 % 4) * 64 + v4) :: bs)
            | none => none
        | none => none
    | _, _ => none
  | _ => none

/-- Rust `Base::decode(&Base::Base64Pad, input)`. -/
def base64PadDecode (s : String) : Option (List Nat) := b64Blocks s.data

/-- Legality of a UTF-8 continuation byte (`0x80..=0xBF`); bytes here are
always below 256. -/
def utf8Cont (b : Nat) : Bool := b / 64 == 2

/-- Rust `String::from_utf8` on a byte list: strict UTF-8 decoding rejecting
stray continuations, overlong forms, surrogates and values above `0x10FFFF`.
Returns the decoded characters. -/
def utf8Decode : List Nat → Option (List Char)
  | [] => some []
  | b :: bs =>
    if b < 128 then
      (utf8Decode bs).map (fun cs => Char.ofNat b :: cs)
    else if b < 194 then none
    else if b < 224 then
      match bs with
      | b2 :: bs2 =>
        if utf8Cont b2 then
          (utf8Decode bs2).map (fun cs => Char.ofNat ((b % 32) * 64 + b2 % 64) :: cs)
        else none
      | [] => none
    else if b < 240 then
      match bs with
      | b2 :: b3 :: bs3 =>
        if utf8Cont b2 ∧ utf8Cont b3 ∧ (b = 224 → 160 ≤ b2) ∧ (b = 237 → b2 < 160) then
          (utf8Decode bs3).map
            (fun cs => Char.ofNat ((b % 16) * 4096 + (b2 % 64) * 64 + b3 % 64) :: cs)
        else none
      | _ => none
    else if b < 245 then
      match bs with
      | b2 :: b3 :: b4 :: bs4 =>
        if utf8Cont b2 ∧ utf8Cont b3 ∧ utf8Cont b4 ∧
            (b = 240 → 144 ≤ b2) ∧ (b = 244 → b2 < 144) then
          (utf8Decode bs4).map
            (fun cs => Char.ofNat ((b % 8) * 262144 + (b2 % 64) * 4096 +
              (b3 % 64) * 64 + b4 % 64) :: cs)
        else none
      | _ => none
    else none

/-- src/src/main.rs lines 498-501: base64-decode the raw payload and convert
it to UTF-8; either failure is returned as an error (in the event loop the
caller propagates it with `?`, aborting the run). -/
def decode_msg (input : String) : Except Unit String :=
  match base64PadDecode input with
  | none => .error ()
  | some bytes =>
    match utf8Decode bytes with
    | none => .error ()
    | some chars => .ok (String.mk chars)

/-- src/src/main.rs line 25. -/
def HEARTBEAT : String := "HEARTBEAT"

example : decode_msg "UW1Y" = .ok "QmX" := rfl
example : decode_msg "!" = .error () := rfl
example : decode_msg "/w==" = .error () := rfl
example : decode_msg "SEVBUlRCRUFU" = .ok "HEARTBEAT" := rfl

/-! ## Data model (src/src/main.rs lines 27-136) -/

/-- src/src/main.rs lines 27-32. -/
inductive Topic
  | ProcessingPollen
  | DonePollen
  | Unknown
deriving DecidableEq

/-- src/src/main.rs lines 34-39.  `OnceSetAsWallpaper` is the spec's
`AppliedOnce`. -/
inductive PollenStatus
  | Processing
  | Done
  | OnceSetAsWallpaper
deriving DecidableEq

/-- src/src/main.rs lines 41-47. -/
inductive Model
  | WikiArt
  | VitB32
  | GuidedDiffusion
  | Unknown
deriving DecidableEq

/-- src/src/main.rs lines 117-130 (`PolledEvolutionInfo`). -/
structure PolledEvolutionInfo where
  hash : String
  name : String
  size : Nat
deriving DecidableEq

/-- One entry of an `ipfs file ls` response (`ipfs_api::response::IpfsHeader`):
the fields this program reads. -/
structure IpfsHeader where
  hash : String
  name : String
  size : Nat
deriving DecidableEq

/-- src/src/main.rs lines 132-136 (`From<&IpfsHeader> for PolledEvolutionInfo`). -/
def polledFromHeader (h : IpfsHeader) : PolledEvolutionInfo :=
  ⟨h.hash, h.name, h.size⟩

/-- src/src/main.rs lines 49-61 (`PollenInfo`). -/
structure PollenInfo where
  id : String
  topic : Topic
  model_type : Option Model
  text_input : Option String
  hash_of_current_iteration : String
  last_polled_evolution : Option PolledEvolutionInfo
  status : PollenStatus
deriving DecidableEq

/-- src/src/main.rs lines 97-114 (`PollenInfo::with_status`). -/
def PollenInfo.with_status (id : String) (topic : Topic)
    (hash_of_current_iteration : String) (model_type : Option Model)
    (text_input : Option String) (status : PollenStatus) : PollenInfo :=
  { id := id
    topic := topic
    hash_of_current_iteration := hash_of_current_iteration
    last_polled_evolution := none
    model_type := model_type
    text_input := text_input
    status := status }

/-! ## The job registry

The Rust `HashMap<String, PollenInfo>` is modelled as an association list
with unique keys; `rget`, `rput`, `rupdate` and `rdel` model `get_mut`/read,
`insert`, in-place mutation through `get_mut`, and `remove_entry`. -/

/-- Registry of tracked pollens (the `pollens` map of `main`). -/
def Registry := List (String × PollenInfo)
deriving DecidableEq

/-- HashMap lookup. -/
def rget (r : Registry) (k : String) : Option PollenInfo :=
  match r with
  | [] => none
  | e :: t => if e.1 = k then some e.2 else rget t k

/-- HashMap insert-or-replace. -/
def rput (r : Registry) (k : String) (v : PollenInfo) : Registry :=
  match r with
  | [] => [(k, v)]
  | e :: t => if e.1 = k then (k, v) :: t else e :: rput t k v

/-- In-place mutation of an existing entry (through `get_mut`). -/
def rupdate (r : Registry) (k : String) (f : PollenInfo → PollenInfo) : Registry :=
  match r with
  | [] => []
  | e :: t => if e.1 = k then (e.1, f e.2) :: t else e :: rupdate t k f

/-- HashMap `remove_entry`. -/
def rdel (r : Registry) (k : String) : Registry :=
  match r with
  | [] => []
  | e :: t => if e.1 = k then rdel t k else e :: rdel t k

/-- src/src/main.rs lines 338-341: count of pollens whose status is
`Processing` (display only). -/
def countProcessing (r : Registry) : Nat :=
  (List.filter (fun e => e.2.status == PollenStatus.Processing) r).length

/-! ## `get_current_topic` and `get_the_latest_image_according_to_numbering` -/

/-- src/src/main.rs lines 510-513: first element of the message's topic list.
The Rust code unwraps it (a panic on an empty list); the caller of this model
maps `none` to the panic outcome. -/
def get_current_topic (topics : List String) : Option String :=
  topics.head?

/-- Digit characters the fold of `get_the_latest_image_according_to_numbering`
extracts from an entry name: every numeric character of the whole name, kept
only when the name contains `".jpg"` (the `contains` test sits inside the
per-character filter closure but does not depend on the character).  The
per-character test models Rust `char::is_numeric` by `Char.isDigit`: on ASCII
characters the two agree exactly (the only ASCII numerics are `0`-`9`), which
is why the resolver theorems carry an `asciiName` hypothesis; a non-ASCII
numeric character would be kept by `c.is_numeric()` and then make the
source's `parse::<usize>().unwrap()` panic, a path outside that ASCII scope
(the overflow panic of the same `unwrap` is modelled explicitly by
`parseUsize` and `get_the_latest_image_checked` below). -/
def extractedDigits (name : String) : List Char :=
  List.filter (fun c => c.isDigit && strContains name ".jpg") name.data

/-- Numeric value the fold assigns to an entry (0 when no digits survive).
This is the mathematical value of the digit string; the source obtains it
through `parse::<usize>().unwrap()`, which panics instead of producing a
value above `USIZE_MAX` — `parseUsize` models that cutoff. -/
def headerIndex (h : IpfsHeader) : Nat :=
  parseDigits (extractedDigits h.name)

/-- Largest value of Rust `usize` on the 64-bit targets this program is
built for. -/
def USIZE_MAX : Nat := 18446744073709551615

/-- Whether every character of a name is ASCII.  On ASCII names the model's
per-character filter (`Char.isDigit`) agrees exactly with the source's
`c.is_numeric()` (main.rs line 525), so the resolver model is exact there;
the resolver theorems are scoped to such names. -/
def asciiName (name : String) : Bool :=
  name.data.all (fun c => c.toNat < 128)

/-- Rust `.parse::<usize>().unwrap()` on the extracted ASCII-digit string
(main.rs line 529): the numeric value when it fits a 64-bit `usize`, a panic
(`none`, from the `Err(PosOverflow)` being unwrapped) on overflow. -/
def parseUsize (s : List Char) : Option Nat :=
  if parseDigits s ≤ USIZE_MAX then some (parseDigits s) else none

/-- One step of the fold in src/src/main.rs lines 518-538. -/
def latestStep (index : Option IpfsHeader × Nat) (header : IpfsHeader) :
    Option IpfsHeader × Nat :=
  let extracted := extractedDigits header.name
  if !extracted.isEmpty then
    let current_index := parseDigits extracted
    if current_index > index.2 then (some header, current_index) else index
  else index

/-- src/src/main.rs lines 515-540: fold the links of the first object of the
`file_ls` response, keeping the entry with the largest extracted number,
starting from `(None, 0)` with a strict `>` comparison.  The Rust function
receives the whole `FileLsResponse` and unwraps its first object (a panic on
an empty map); the model takes that first object's links. -/
def get_the_latest_image_according_to_numbering (links : List IpfsHeader) :
    Option IpfsHeader :=
  (links.foldl latestStep ((none : Option IpfsHeader), 0)).1

example :
    get_the_latest_image_according_to_numbering
      [⟨"h0", "processing_00000.jpg", 1⟩, ⟨"h3", "processing_00003.jpg", 1⟩,
       ⟨"hx", "readme.txt", 1⟩] =
      some ⟨"h3", "processing_00003.jpg", 1⟩ := rfl

example :
    get_the_latest_image_according_to_numbering
      [⟨"h0", "processing_00000.jpg", 1⟩] = none := rfl

/-- One step of the same fold with the `unwrap` of main.rs line 529 made
explicit: `none` is a panic raised while folding (the extracted digit string
does not fit a `usize`). -/
def latestStepChecked (index : Option IpfsHeader × Nat) (header : IpfsHeader) :
    Option (Option IpfsHeader × Nat) :=
  let extracted := extractedDigits header.name
  if !extracted.isEmpty then
    match parseUsize extracted with
    | none => none
    | some current_index =>
      if current_index > index.2 then some (some header, current_index)
      else some index
  else some index

/-- The fold of src/src/main.rs lines 518-538 with panic propagation. -/
def latestFoldChecked : List IpfsHeader → (Option IpfsHeader × Nat) →
    Option (Option IpfsHeader × Nat)
  | [], acc => some acc
  | h :: t, acc =>
    match latestStepChecked acc h with
    | none => none
    | some acc1 => latestFoldChecked t acc1

/-- Panic-aware model of `get_the_latest_image_according_to_numbering`
(src/src/main.rs lines 515-540): `none` means the `parse::<usize>().unwrap()`
inside the fold panicked; `some r` is normal termination with resolver result
`r`.  Where no entry overflows, it agrees with the total model above. -/
def get_the_latest_image_checked (links : List IpfsHeader) :
    Option (Option IpfsHeader) :=
  (latestFoldChecked links ((none : Option IpfsHeader), 0)).map (fun r => r.1)

/-! ## `save_pollen` (src/src/main.rs lines 542-573)

The byte-moving part of `save_pollen` is modelled over the list of data
chunks the download stream yields (`while let Some(Ok(buf))`).  `Bytes::slice`
panics when the start index exceeds the length, modelled as `none`. -/

/-- Rust `Bytes::slice(start..)`: the suffix from `start`, a panic (`none`)
when `start` exceeds the length. -/
def sliceFrom (buf : List Nat) (start : Nat) : Option (List Nat) :=
  if start ≤ buf.length then some (buf.drop start) else none

/-- The download-and-write loop of `save_pollen` with the running chunk
counter `cnt`: the chunk seen at `cnt = 0` is written from byte 512 on, every
later chunk verbatim. -/
def savePollenLoop (cnt : Nat) : List (List Nat) → Option (List Nat)
  | [] => some []
  | buf :: rest =>
    match (if cnt = 0 then sliceFrom buf 512 else sliceFrom buf 0) with
    | none => none
    | some bytes => (savePollenLoop (cnt + 1) rest).map (fun bs => bytes ++ bs)

/-- Bytes `save_pollen` writes to the file for a given chunk sequence;
`none` models the `slice(512..)` panic on a short first chunk. -/
def save_pollen (chunks : List (List Nat)) : Option (List Nat) :=
  savePollenLoop 0 chunks

/-! ## `clear_previous_pollens` (src/src/main.rs lines 608-641)

Creation times are nanoseconds since the epoch; `SystemTime::elapsed` is
`now - t` (its `unwrap` panics when `t` is in the future, so theorems assume
times not after `now`), and `Duration::as_millis` divides by 1000000.  The
function deletes a directory entry when the just-saved file's elapsed millis
are strictly smaller than the entry's elapsed millis. -/

/-- Deletion test of src/src/main.rs lines 615-617. -/
def deleteCond (now current entryCreated : Nat) : Bool :=
  (now - current) / 1000000 < (now - entryCreated) / 1000000

/-- Paths `clear_previous_pollens` removes, given the directory entries as
`(path, creation-time)` pairs (entries whose metadata or creation time is
unavailable are skipped by the Rust code and are simply not listed). -/
def clear_previous_pollens (now : Nat) (dirEntries : List (String × Nat))
    (current_creation_time : Nat) : List String :=
  List.map (fun e => e.1)
    (List.filter (fun e => deleteCond now current_creation_time e.2) dirEntries)

/-! ## The event loop (src/src/main.rs lines 229-494)

One iteration of `while let Some(input) = merged.next().await` is modelled as
a pure step.  The results of the remote calls the iteration may perform
(`block_stat`, the two metadata `cat`s, `file_ls`, the artifact download and
the cleanup scan) are supplied in a `RemoteEnv` record; the I/O the iteration
actually performs is reported as a list of `Effect`s.  A `?` propagation or a
panic ends the run and is reported through `StepOut.err` together with the
state at that moment. -/

/-- One pubsub item (`ipfs_api` pubsub response): the fields `main` reads. -/
structure PubsubMsg where
  data : Option String
  topic_ids : Option (List String)

/-- Results of the remote calls one loop iteration may perform.
`block_stat = none` models an `Err` from `client.block_stat` (the key field
otherwise), `file_ls = none` an `Err` from `client.file_ls` (the links of the
response's first object otherwise), `save_result` the outcome of
`save_pollen` (the optional creation time of the saved file on success) and
`clear_ok` whether `clear_previous_pollens` succeeds. -/
structure RemoteEnv where
  block_stat : Option String
  text_input : Option String
  model_type : Option Model
  file_ls : Option (List IpfsHeader)
  save_result : Except Unit (Option Nat)
  clear_ok : Bool

/-- I/O actions one loop iteration performs, in order.  `setWallpaper` stands
for the spawned `set_wallpaper_with_delay` task and `clearPrev` for the
`clear_previous_pollens` call (whose own deletions are modelled separately). -/
inductive Effect
  | blockStat (path : String)
  | catTextInput (uuid : String)
  | catModel (uuid : String)
  | fileLs (path : String)
  | save (savePath : String) (hash : String)
  | setWallpaper (savePath : String)
  | clearPrev
deriving DecidableEq

/-- Ways one iteration ends the whole run: `decodeErr` (`decode_msg(msg)?`),
`saveErr` (`save_pollen(..).await?`), `clearErr`
(`clear_previous_pollens(..).await?`), `panicErr` (an `unwrap` or
`unreachable!`). -/
inductive StepErr
  | decodeErr
  | saveErr
  | clearErr
  | panicErr
deriving DecidableEq

/-- Mutable state of `main`'s loop: the `pollens` map and the attach slot
`pollen_uuid_to_attach`. -/
structure LoopState where
  pollens : Registry
  pollen_uuid_to_attach : Option String
deriving DecidableEq

/-- Outcome of one loop iteration: a fatal error if any, the loop state when
the iteration ends, and the I/O effects performed. -/
structure StepOut where
  err : Option StepErr
  state : LoopState
  fx : List Effect
deriving DecidableEq

/-- Outcome of the registry-update block, src/src/main.rs lines 265-329:
`cont` is a `continue` (skip the rest of the iteration), `proceed` falls
through to the listing stage, `panic` is an `unreachable!()`. -/
inductive RegStage
  | panic
  | cont (r : Registry)
  | proceed (r : Registry)

/-- src/src/main.rs lines 265-329.  A tracked pollen first has its `topic`,
`hash_of_current_iteration`, `model_type` and `text_input` refreshed; then a
pollen already at `OnceSetAsWallpaper` lets a `ProcessingPollen` event pass
unchanged and drops (`continue`) a `DonePollen` event, while any other status
is overwritten from the topic.  An untracked pollen is inserted via
`PollenInfo::with_status`. -/
def registryUpdate (r : Registry) (uuid : String) (topic : Topic)
    (hash : String) (model_type : Option Model) (text_input : Option String) :
    RegStage :=
  match rget r uuid with
  | some pollen =>
    let p1 : PollenInfo :=
      { pollen with
        topic := topic
        hash_of_current_iteration := hash
        model_type := model_type
        text_input := text_input }
    match pollen.status with
    | .OnceSetAsWallpaper =>
      match topic with
      | .ProcessingPollen => .proceed (rput r uuid p1)
      | .DonePollen => .cont (rput r uuid p1)
      | .Unknown => .panic
    | _ =>
      match topic with
      | .ProcessingPollen => .proceed (rput r uuid { p1 with status := .Processing })
      | .DonePollen => .proceed (rput r uuid { p1 with status := .Done })
      | .Unknown => .panic
  | none =>
    match topic with
    | .DonePollen =>
      .proceed (rput r uuid
        (PollenInfo.with_status uuid topic hash model_type text_input .Done))
    | .ProcessingPollen =>
      .proceed (rput r uuid
        (PollenInfo.with_status uuid topic hash model_type text_input .Processing))
    | .Unknown => .panic

/-- Shared tail of the two apply blocks (src/src/main.rs lines 358-399 for the
attached `Processing` branch, lines 425-469 for the `Done` branch): build the
save path, run `save_pollen` (a failure propagates with `?`), spawn the
wallpaper task, update `last_polled_evolution` (and for the `Done` branch set
the status to `OnceSetAsWallpaper`), run `clear_previous_pollens` when a
creation time was obtained (a failure propagates with `?`), and for the `Done`
branch finally `remove_entry` the pollen. -/
def saveAndApply (appFolder : String) (st : LoopState) (uuid : String)
    (header : IpfsHeader) (env : RemoteEnv) (fx : List Effect)
    (isDone : Bool) : StepOut :=
  let save_path := appFolder ++ "/" ++ uuid ++ "_" ++ header.name
  let fx2 := fx ++ [Effect.save save_path header.hash]
  match env.save_result with
  | .error _ => ⟨some .saveErr, st, fx2⟩
  | .ok save_time =>
    let fx3 := fx2 ++ [Effect.setWallpaper save_path]
    let r1 := rupdate st.pollens uuid (fun p =>
      if isDone then
        { p with status := .OnceSetAsWallpaper,
                 last_polled_evolution := some (polledFromHeader header) }
      else
        { p with last_polled_evolution := some (polledFromHeader header) })
    match save_time with
    | some _ =>
      if env.clear_ok then
        let r2 := if isDone then rdel r1 uuid else r1
        ⟨none, ⟨r2, st.pollen_uuid_to_attach⟩, fx3 ++ [Effect.clearPrev]⟩
      else ⟨some .clearErr, ⟨r1, st.pollen_uuid_to_attach⟩, fx3⟩
    | none =>
      let r2 := if isDone then rdel r1 uuid else r1
      ⟨none, ⟨r2, st.pollen_uuid_to_attach⟩, fx3⟩

/-- src/src/main.rs lines 345-410 (`PollenStatus::Processing` arm): in attach
mode an empty slot is first filled with this pollen's uuid, then only the
attached pollen is saved and applied; others are skipped with `continue`.
Without attach mode, the arm does nothing. -/
def processingBranch (attach : Bool) (appFolder : String) (st : LoopState)
    (uuid : String) (header : IpfsHeader) (env : RemoteEnv)
    (fx : List Effect) : StepOut :=
  if attach then
    let slot1 := if st.pollen_uuid_to_attach.isNone then some uuid
                 else st.pollen_uuid_to_attach
    match slot1 with
    | some a =>
      if uuid = a then
        saveAndApply appFolder ⟨st.pollens, slot1⟩ uuid header env fx false
      else ⟨none, ⟨st.pollens, slot1⟩, fx⟩
    | none => ⟨none, st, fx⟩
  else ⟨none, st, fx⟩

/-- src/src/main.rs lines 411-470 (`PollenStatus::Done` arm): in attach mode
an occupied slot blocks (`continue`) every pollen but the attached one, whose
completion empties the slot; an empty slot falls through.  The pollen is then
saved, applied, marked `OnceSetAsWallpaper` and removed from the registry. -/
def doneBranch (attach : Bool) (appFolder : String) (st : LoopState)
    (uuid : String) (header : IpfsHeader) (env : RemoteEnv)
    (fx : List Effect) : StepOut :=
  if attach then
    match st.pollen_uuid_to_attach with
    | some a =>
      if uuid = a then
        saveAndApply appFolder ⟨st.pollens, none⟩ uuid header env fx true
      else ⟨none, st, fx⟩
    | none => saveAndApply appFolder st uuid header env fx true
  else saveAndApply appFolder st uuid header env fx true

/-- src/src/main.rs lines 331-480: list the pollen's output folder (an `Err`
skips the event), resolve the latest image (no candidate skips the event),
re-read the pollen (its absence would be an `unwrap` panic; a status of
`OnceSetAsWallpaper` here is the `_ => unreachable!()` of line 471) and branch
on its status. -/
def listingStage (attach : Bool) (appFolder : String) (st : LoopState)
    (uuid : String) (hash : String) (env : RemoteEnv) (fx : List Effect) :
    StepOut :=
  let path := "/ipfs/" ++ hash ++ "/output"
  let fx1 := fx ++ [Effect.fileLs path]
  match env.file_ls with
  | none => ⟨none, st, fx1⟩
  | some links =>
    match get_the_latest_image_according_to_numbering links with
    | none => ⟨none, st, fx1⟩
    | some header =>
      match rget st.pollens uuid with
      | none => ⟨some .panicErr, st, fx1⟩
      | some pollen =>
        match pollen.status with
        | .Processing => processingBranch attach appFolder st uuid header env fx1
        | .Done => doneBranch attach appFolder st uuid header env fx1
        | .OnceSetAsWallpaper => ⟨some .panicErr, st, fx1⟩

/-- src/src/main.rs lines 250-484: drop `Unknown` topics, resolve the pollen
uuid with `block_stat` (an `Err` skips the event), fetch the two metadata
blobs, update the registry and, unless that update `continue`d, run the
listing stage. -/
def processTopic (attach : Bool) (appFolder : String) (st : LoopState)
    (hash : String) (topic : Topic) (env : RemoteEnv) : StepOut :=
  if topic = .Unknown then ⟨none, st, []⟩
  else
    match env.block_stat with
    | none => ⟨none, st, [Effect.blockStat (hash ++ "/input")]⟩
    | some uuid =>
      let fx0 := [Effect.blockStat (hash ++ "/input"),
                  Effect.catTextInput uuid, Effect.catModel uuid]
      match registryUpdate st.pollens uuid topic hash env.model_type env.text_input with
      | .panic => ⟨some .panicErr, st, fx0⟩
      | .cont r1 => ⟨none, ⟨r1, st.pollen_uuid_to_attach⟩, fx0⟩
      | .proceed r1 =>
        listingStage attach appFolder ⟨r1, st.pollen_uuid_to_attach⟩ uuid hash env fx0

/-- One iteration of the event loop, src/src/main.rs lines 230-493: a pubsub
error or an empty `data` is skipped, the payload is decoded (`?` on failure),
`HEARTBEAT` payloads are dropped before classification, the first topic id is
classified (its absence is an `unwrap` panic) and the event is processed. -/
def processEvent (attach : Bool) (appFolder : String) (st : LoopState)
    (input : Except Unit PubsubMsg) (env : RemoteEnv) : StepOut :=
  match input with
  | .error _ => ⟨none, st, []⟩
  | .ok res =>
    match res.data with
    | none => ⟨none, st, []⟩
    | some rawMsg =>
      match decode_msg rawMsg with
      | .error _ => ⟨some .decodeErr, st, []⟩
      | .ok msg =>
        if strContains msg HEARTBEAT then ⟨none, st, []⟩
        else
          match res.topic_ids with
          | none => ⟨some .panicErr, st, []⟩
          | some topics =>
            match get_current_topic topics with
            | none => ⟨some .panicErr, st, []⟩
            | some t0 =>
              let topic := if t0 = "done_pollen" then Topic.DonePollen
                           else if t0 = "processing_pollen" then Topic.ProcessingPollen
                           else Topic.Unknown
              processTopic attach appFolder st msg topic env

/-- The whole event loop over a finite prefix of the merged stream: iterate
`processEvent`, stopping at the first fatal error, and concatenate the
effects. -/
def runLoop (attach : Bool) (appFolder : String) (st : LoopState) :
    List (Except Unit PubsubMsg × RemoteEnv) →
    Option StepErr × LoopState × List Effect
  | [] => (none, st, [])
  | (input, env) :: rest =>
    let out := processEvent attach appFolder st input env
    match out.err with
    | some e => (some e, out.state, out.fx)
    | none =>
      let tail := runLoop attach appFolder out.state rest
      (tail.1, tail.2.1, out.fx ++ tail.2.2)

/-! ## Spec-side definitions

The following two definitions formalise the SPEC's wording for the artifact
resolver (§4.4: entry names of the shape "prefix + zero-padded frame number +
fixed extension", i.e. `ccc..._ddddd.jpg`, selected by the numeric suffix).
They are used only to compare the resolver's actual behaviour with the
spec's description. -/

/-- Suffix test: does `suf` occur at the end of `l`? -/
def listEndsWith (l suf : List Char) : Bool :=
  listStartsWith l.reverse suf.reverse

/-- Frame number of a name of the spec's shape `prefix ++ "_" ++ digits ++
".jpg"` (nonempty digits, an underscore right before them); `none` when the
name is not of that shape. -/
def specFrameSuffix (name : String) : Option Nat :=
  let cs := name.data
  if listEndsWith cs (String.data ".jpg") then
    let stem := cs.take (cs.length - 4)
    let ds := (stem.reverse.takeWhile (fun c => c.isDigit)).reverse
    let pre := stem.take (stem.length - ds.length)
    if ds.isEmpty then none
    else
      match pre.getLast? with
      | some c => if c = '_' then some (parseDigits ds) else none
      | none => none
  else none

/-- Whether a name matches the spec's frame-name pattern. -/
def specFramePattern (name : String) : Bool :=
  (specFrameSuffix name).isSome

example : specFrameSuffix "processing_00005.jpg" = some 5 := rfl
example : specFrameSuffix "readme.txt" = none := rfl

/-! ## Helper lemmas -/

theorem rget_rput (r : Registry) (k : String) (v : PollenInfo) :
    rget (rput r k v) k = some v := by
  induction r with
  | nil => simp [rget, rput]
  | cons e t ih =>
    by_cases h : e.1 = k
    · simp [rget, rput, h]
    · simpa [rget, rput, h] using ih

theorem rget_rupdate (r : Registry) (k : String) (f : PollenInfo → PollenInfo) :
    rget (rupdate r k f) k = (rget r k).map f := by
  induction r with
  | nil => simp [rget, rupdate]
  | cons e t ih =>
    by_cases h : e.1 = k
    · simp [rget, rupdate, h]
    · simpa [rget, rupdate, h] using ih

theorem rget_rdel (r : Registry) (k : String) : rget (rdel r k) k = none := by
  induction r with
  | nil => simp [rget, rdel]
  | cons e t ih =>
    by_cases h : e.1 = k
    · simpa [rget, rdel, h] using ih
    · simpa [rget, rdel, h] using ih

/-- The fold step in closed form: take the new header exactly when its value
beats the accumulator. -/
theorem latestStep_eq (acc : Option IpfsHeader × Nat) (h : IpfsHeader) :
    latestStep acc h =
      if acc.2 < headerIndex h then (some h, headerIndex h) else acc := by
  unfold latestStep headerIndex
  by_cases hE : (extractedDigits h.name).isEmpty
  · have : extractedDigits h.name = [] := by
      simpa [List.isEmpty_iff] using hE
    simp [hE, this, parseDigits]
  · simp [hE, gt_iff_lt]

/-- The second fold component accumulates the maximum header value. -/
theorem latest_fold_snd (L : List IpfsHeader) :
    ∀ acc : Option IpfsHeader × Nat,
      (L.foldl latestStep acc).2 =
        L.foldl (fun m h => max m (headerIndex h)) acc.2 := by
  induction L with
  | nil => intro acc; rfl
  | cons x t ih =>
    intro acc
    rw [List.foldl_cons, List.foldl_cons, latestStep_eq]
    by_cases hx : acc.2 < headerIndex x
    · rw [if_pos hx, ih]
      simp [Nat.max_eq_right (le_of_lt hx)]
    · rw [if_neg hx, ih]
      simp [Nat.max_eq_left (Nat.le_of_not_lt hx)]

/-- Dominated entries leave the fold unchanged. -/
theorem latest_fold_dominated (L : List IpfsHeader) :
    ∀ acc : Option IpfsHeader × Nat,
      (∀ h ∈ L, headerIndex h ≤ acc.2) → L.foldl latestStep acc = acc := by
  induction L with
  | nil => intro acc _; rfl
  | cons x t ih =>
    intro acc hall
    rw [List.foldl_cons, latestStep_eq,
      if_neg (Nat.not_lt.mpr (hall x (List.mem_cons_self x t)))]
    exact ih acc fun h hm => hall h (List.mem_cons_of_mem x hm)

/-- A strictly maximal entry that beats the accumulator is selected. -/
theorem latest_fold_selects (L : List IpfsHeader) :
    ∀ acc : Option IpfsHeader × Nat, ∀ h ∈ L, acc.2 < headerIndex h →
      (∀ h' ∈ L, h' ≠ h → headerIndex h' < headerIndex h) →
      (L.foldl latestStep acc).1 = some h := by
  induction L with
  | nil => intro _ h hm; exact absurd hm (List.not_mem_nil h)
  | cons x t ih =>
    intro acc h hm hacc hmax
    by_cases hxeq : x = h
    · subst hxeq
      rw [List.foldl_cons, latestStep_eq, if_pos hacc]
      have hdom : ∀ h' ∈ t, headerIndex h' ≤
          ((some x, headerIndex x) : Option IpfsHeader × Nat).2 := by
        intro h' hm'
        by_cases hne : h' = x
        · exact le_of_eq (congrArg headerIndex hne)
        · exact le_of_lt (hmax h' (List.mem_cons_of_mem x hm') hne)
      rw [latest_fold_dominated t (some x, headerIndex x) hdom]
    · have ht : h ∈ t := by
        rcases List.mem_cons.mp hm with hx | ht
        · exact absurd hx.symm hxeq
        · exact ht
      have hxh : headerIndex x < headerIndex h :=
        hmax x (List.mem_cons_self x t) hxeq
      rw [List.foldl_cons, latestStep_eq]
      by_cases hcx : acc.2 < headerIndex x
      · rw [if_pos hcx]
        exact ih (some x, headerIndex x) h ht hxh
          (fun h' hm' hne => hmax h' (List.mem_cons_of_mem x hm') hne)
      · rw [if_neg hcx]
        exact ih acc h ht hacc
          (fun h' hm' hne => hmax h' (List.mem_cons_of_mem x hm') hne)

/-- Entries without surviving digits are identity steps of the fold. -/
theorem latest_fold_filter (L : List IpfsHeader) :
    ∀ acc : Option IpfsHeader × Nat,
      L.foldl latestStep acc =
        (L.filter (fun h => !(extractedDigits h.name).isEmpty)).foldl latestStep acc := by
  induction L with
  | nil => intro acc; rfl
  | cons x t ih =>
    intro acc
    by_cases hx : (extractedDigits x.name).isEmpty
    · have hstep : latestStep acc x = acc := by
        unfold latestStep; simp [hx]
      rw [List.foldl_cons, hstep, List.filter_cons, if_neg (by simp [hx])]
      exact ih acc
    · rw [List.foldl_cons, List.filter_cons, if_pos (by simp [hx]), List.foldl_cons]
      exact ih (latestStep acc x)

/-- Where no entry's value overflows a `usize`, the checked fold terminates
normally and agrees with the total fold. -/
theorem latestFoldChecked_agrees (links : List IpfsHeader) :
    ∀ acc : Option IpfsHeader × Nat,
      (∀ h ∈ links, headerIndex h ≤ USIZE_MAX) →
      latestFoldChecked links acc = some (links.foldl latestStep acc) := by
  induction links with
  | nil => intro acc _; rfl
  | cons x t ih =>
    intro acc hall
    have hx : headerIndex x ≤ USIZE_MAX := hall x (List.mem_cons_self x t)
    have hstep : latestStepChecked acc x = some (latestStep acc x) := by
      unfold latestStepChecked latestStep
      by_cases hE : (extractedDigits x.name).isEmpty
      · simp [hE]
      · have hx' : parseDigits (extractedDigits x.name) ≤ USIZE_MAX := hx
        simp only [hE, Bool.not_false, if_true, parseUsize, if_pos hx']
        by_cases hgt : parseDigits (extractedDigits x.name) > acc.2
        · simp [hgt]
        · simp [hgt]
    unfold latestFoldChecked
    rw [hstep, List.foldl_cons]
    exact ih (latestStep acc x) fun h hm => hall h (List.mem_cons_of_mem x hm)

/-- A candidate entry whose value does not fit a `usize` makes the checked
fold panic, whatever the accumulator. -/
theorem latestFoldChecked_panics (links : List IpfsHeader) :
    ∀ (acc : Option IpfsHeader × Nat) (h : IpfsHeader), h ∈ links →
      (extractedDigits h.name).isEmpty = false → USIZE_MAX < headerIndex h →
      latestFoldChecked links acc = none := by
  induction links with
  | nil => intro _ h hm; exact absurd hm (List.not_mem_nil h)
  | cons x t ih =>
    intro acc h hm hne hover
    unfold latestFoldChecked
    rcases hstep : latestStepChecked acc x with _ | acc1
    · rfl
    · have hxh : x ≠ h := by
        intro heq
        subst heq
        have hpar : parseUsize (extractedDigits x.name) = none := by
          unfold parseUsize
          exact if_neg (Nat.not_le.mpr hover)
        simp [latestStepChecked, hne, hpar] at hstep
      have ht : h ∈ t := by
        rcases List.mem_cons.mp hm with hx | ht
        · exact absurd hx.symm hxh
        · exact ht
      exact ih acc1 h ht hne hover

/-- Entries without surviving digits are identity steps of the checked fold
as well: they neither panic nor influence the result. -/
theorem latestFoldChecked_filter (links : List IpfsHeader) :
    ∀ acc : Option IpfsHeader × Nat,
      latestFoldChecked links acc =
        latestFoldChecked
          (links.filter (fun h => !(extractedDigits h.name).isEmpty)) acc := by
  induction links with
  | nil => intro acc; rfl
  | cons x t ih =>
    intro acc
    by_cases hx : (extractedDigits x.name).isEmpty
    · have hstep : latestStepChecked acc x = some acc := by
        unfold latestStepChecked; simp [hx]
      rw [List.filter_cons, if_neg (by simp [hx])]
      have hcons : latestFoldChecked (x :: t) acc = latestFoldChecked t acc := by
        simp only [latestFoldChecked, hstep]
      rw [hcons]
      exact ih acc
    · rw [List.filter_cons, if_pos (by simp [hx])]
      rcases hstep : latestStepChecked acc x with _ | acc1
      · simp only [latestFoldChecked, hstep]
      · simp only [latestFoldChecked, hstep]
        exact ih acc1

/-! ## Concrete sample inputs used by witnesses and counterexamples

`"UW1Y"` is the padded base64 encoding of the payload `"QmX"`. -/

/-- Concrete pubsub item announcing `"QmX"` on the done channel. -/
def sampleDoneMsg : Except Unit PubsubMsg := .ok ⟨some "UW1Y", some ["done_pollen"]⟩

/-- Concrete pubsub item announcing `"QmX"` on the processing channel. -/
def sampleProcMsg : Except Unit PubsubMsg := .ok ⟨some "UW1Y", some ["processing_pollen"]⟩

/-- Concrete output-folder entry. -/
def sampleHeader : IpfsHeader := ⟨"ha", "processing_00003.jpg", 5⟩

/-- Concrete remote environment: uuid `"u1"`, one output entry, a successful
save with creation time 1000, a successful cleanup. -/
def sampleEnv : RemoteEnv := ⟨some "u1", none, none, some [sampleHeader], .ok (some 1000), true⟩

/-- Same as `sampleEnv` but the artifact write fails. -/
def sampleEnvSaveFail : RemoteEnv :=
  ⟨some "u1", none, none, some [sampleHeader], .error (), true⟩

/-! ## Claims -/

/-- C7: for every received payload whose base64 decoding or UTF-8 conversion
fails, `decode_msg` returns an error and the event loop aborts with it: the
whole run ends with `decodeErr`, the state is left as it was, no effect is
performed, and the remaining events — however many — are never processed. -/
theorem C7_decode_failure_fatal (attach : Bool) (appFolder : String)
    (st : LoopState) (raw : String) (tids : Option (List String))
    (env : RemoteEnv) (rest : List (Except Unit PubsubMsg × RemoteEnv))
    (hdec : decode_msg raw = .error ()) :
    runLoop attach appFolder st ((.ok ⟨some raw, tids⟩, env) :: rest) =
      (some .decodeErr, st, []) := by
  simp [runLoop, processEvent, hdec]

/-- Witness for C7: the malformed payload `"!"` (not base64) aborts a run
even though a well-formed event is still queued behind it. -/
theorem C7_witness :
    runLoop false "app" ⟨[], none⟩
      [(.ok ⟨some "!", some ["done_pollen"]⟩, sampleEnv), (sampleDoneMsg, sampleEnv)] =
      (some .decodeErr, ⟨[], none⟩, []) :=
  C7_decode_failure_fatal false "app" ⟨[], none⟩ "!" (some ["done_pollen"])
    sampleEnv [(sampleDoneMsg, sampleEnv)] rfl

/-- C8: a message whose decoded payload contains the `HEARTBEAT` marker is
discarded before classification: the iteration performs no effect (no remote
lookup) and leaves the state — registry and attach slot — untouched. -/
theorem C8_heartbeat_noop (attach : Bool) (appFolder : String) (st : LoopState)
    (raw msg : String) (tids : Option (List String)) (env : RemoteEnv)
    (hdec : decode_msg raw = .ok msg)
    (hhb : strContains msg HEARTBEAT = true) :
    processEvent attach appFolder st (.ok ⟨some raw, tids⟩) env = ⟨none, st, []⟩ := by
  simp [processEvent, hdec, hhb]

/-- Witness for C8: the base64 encoding of `"HEARTBEAT"` itself. -/
theorem C8_witness :
    processEvent false "app" ⟨[], none⟩
      (.ok ⟨some "SEVBUlRCRUFU", some ["done_pollen"]⟩) sampleEnv =
      ⟨none, ⟨[], none⟩, []⟩ :=
  C8_heartbeat_noop false "app" ⟨[], none⟩ "SEVBUlRCRUFU" "HEARTBEAT"
    (some ["done_pollen"]) sampleEnv rfl rfl

/-- C9: an event whose first channel name is neither `"done_pollen"` nor
`"processing_pollen"` classifies to `Unknown` and is dropped: no effect is
performed and the state — in particular the registry — is unchanged. -/
theorem C9_unknown_topic_noop (attach : Bool) (appFolder : String)
    (st : LoopState) (raw msg t0 : String) (tids : List String)
    (env : RemoteEnv)
    (hdec : decode_msg raw = .ok msg)
    (hhb : strContains msg HEARTBEAT = false)
    (hhd : get_current_topic tids = some t0)
    (h1 : t0 ≠ "done_pollen") (h2 : t0 ≠ "processing_pollen") :
    processEvent attach appFolder st (.ok ⟨some raw, some tids⟩) env = ⟨none, st, []⟩ := by
  simp [processEvent, processTopic, hdec, hhb, hhd, h1, h2]

/-- Witness for C9: an event on an unrelated channel name. -/
theorem C9_witness :
    processEvent false "app" ⟨[], none⟩
      (.ok ⟨some "UW1Y", some ["other_channel"]⟩) sampleEnv =
      ⟨none, ⟨[], none⟩, []⟩ :=
  C9_unknown_topic_noop false "app" ⟨[], none⟩ "UW1Y" "QmX" "other_channel"
    ["other_channel"] sampleEnv rfl rfl rfl (by decide) (by decide)

/-- The write loop of `save_pollen` never fails after the first chunk and
copies the remaining chunks verbatim. -/
theorem savePollenLoop_tail (chunks : List (List Nat)) :
    ∀ cnt : Nat, cnt ≠ 0 → savePollenLoop cnt chunks = some chunks.flatten := by
  induction chunks with
  | nil => intro cnt _; rfl
  | cons buf rest ih =>
    intro cnt hcnt
    simp [savePollenLoop, hcnt, sliceFrom, ih (cnt + 1) (Nat.succ_ne_zero cnt)]

/-- C10: `save_pollen` strips exactly the first 512 bytes of the first chunk
of the download stream and writes every later chunk verbatim; when the first
chunk is at least 512 bytes long this always succeeds, and a stream whose
first chunk is shorter than 512 bytes (here a single zero byte) hits the
`slice(512..)` panic, modelled as `none`. -/
theorem C10_save_pollen_strips_first_512 :
    (∀ (first : List Nat) (rest : List (List Nat)), 512 ≤ first.length →
      save_pollen (first :: rest) = some (first.drop 512 ++ rest.flatten)) ∧
    save_pollen [[0]] = none := by
  constructor
  · intro first rest hlen
    simp [save_pollen, savePollenLoop, sliceFrom, hlen,
      savePollenLoop_tail rest 1 (by decide)]
  · rfl

/-- Witness for C10: a first chunk of exactly 512 zero bytes followed by one
more chunk; everything of the first chunk is stripped and the second chunk is
written verbatim. -/
theorem C10_witness :
    save_pollen [List.replicate 512 0, [7, 8]] = some [7, 8] := by
  have hlen : (List.replicate 512 (0 : Nat)).length = 512 :=
    List.length_replicate 512 0
  have h := C10_save_pollen_strips_first_512.1 (List.replicate 512 0) [[7, 8]]
    (le_of_eq hlen.symm)
  rw [h, List.drop_eq_nil_of_le (le_of_eq hlen)]
  rfl

/-- C3 counterexample: the claim fails on the code in two ways.  First, a
listing whose only entry matches the spec's frame pattern with frame number
0 yields `None` (the fold starts at 0 with a strict comparison), where the
claim requires that entry to be returned.  Second, the extracted number is
built from all digits of the name, not the frame suffix: between
`"v2_0003.jpg"` (suffix 3) and `"a_0010.jpg"` (suffix 10) the resolver picks
`"v2_0003.jpg"` (20003 > 10), not the maximum-suffix entry. -/
theorem C3_counterexample :
    get_the_latest_image_according_to_numbering
        [⟨"h0", "processing_00000.jpg", 1⟩] = none ∧
    specFramePattern "processing_00000.jpg" = true ∧
    get_the_latest_image_according_to_numbering
        [⟨"h1", "v2_0003.jpg", 1⟩, ⟨"h2", "a_0010.jpg", 1⟩] =
      some ⟨"h1", "v2_0003.jpg", 1⟩ ∧
    specFrameSuffix "v2_0003.jpg" = some 3 ∧
    specFrameSuffix "a_0010.jpg" = some 10 :=
  ⟨rfl, rfl, rfl, rfl, rfl⟩

/-- C3 (amended): stated on the panic-aware resolver model and scoped to
listings of ASCII names — there the model's per-character filter agrees
exactly with the source's `c.is_numeric()`, while a non-ASCII numeric
character would make the source's `parse::<usize>().unwrap()` panic.  Call an
entry a candidate when its name contains `".jpg"` and holds at least one
digit, its value being the number formed by all digits of the name (not only
the frame suffix).  Then: (1) when every entry's value is 0 — no candidates,
or only zero-valued ones such as frame `0000` — the resolver returns `None`
without panicking; (2) when some candidate's value is the strict positive
maximum and no entry's value overflows a `usize`, that candidate is
returned; (3) a candidate whose value exceeds `usize::MAX` makes the
resolver panic in `parse().unwrap()`; (4) non-candidate entries influence
neither the result nor the panic behaviour. -/
theorem C3_resolver_selection (links : List IpfsHeader)
    (_hascii : ∀ h ∈ links, asciiName h.name = true) :
    ((∀ h ∈ links, headerIndex h = 0) →
        get_the_latest_image_checked links = some none) ∧
    (∀ h : IpfsHeader, h ∈ links → 0 < headerIndex h →
        (∀ hx ∈ links, headerIndex hx ≤ USIZE_MAX) →
        (∀ hx ∈ links, hx ≠ h → headerIndex hx < headerIndex h) →
        get_the_latest_image_checked links = some (some h)) ∧
    (∀ h : IpfsHeader, h ∈ links → (extractedDigits h.name).isEmpty = false →
        USIZE_MAX < headerIndex h →
        get_the_latest_image_checked links = none) ∧
    get_the_latest_image_checked links =
      get_the_latest_image_checked
        (links.filter (fun h => !(extractedDigits h.name).isEmpty)) := by
  refine ⟨?_, ?_, ?_, ?_⟩
  · intro hall
    unfold get_the_latest_image_checked
    rw [latestFoldChecked_agrees links (none, 0)
      (fun h hm => (hall h hm).le.trans (Nat.zero_le USIZE_MAX))]
    rw [latest_fold_dominated links (none, 0)
      (fun h hm => Nat.le_of_eq (hall h hm))]
    rfl
  · intro h hm hpos hbound hmax
    unfold get_the_latest_image_checked
    rw [latestFoldChecked_agrees links (none, 0) hbound]
    exact congrArg some (latest_fold_selects links (none, 0) h hm hpos hmax)
  · intro h hm hne hover
    unfold get_the_latest_image_checked
    rw [latestFoldChecked_panics links (none, 0) h hm hne hover]
    rfl
  · unfold get_the_latest_image_checked
    rw [latestFoldChecked_filter links (none, 0)]

/-- Witness for C3: a listing mixing a positive-valued candidate, a
lower-valued candidate and a non-candidate selects the maximum; a listing
whose only candidate is frame `0000` yields `None`; a 20-digit value
(exceeding `usize::MAX`) panics; and filtering the non-candidate away
preserves the result. -/
theorem C3_witness :
    get_the_latest_image_checked
        [⟨"h1", "processing_00001.jpg", 1⟩, ⟨"h3", "processing_00003.jpg", 1⟩,
         ⟨"hx", "readme.txt", 1⟩] =
      some (some ⟨"h3", "processing_00003.jpg", 1⟩) ∧
    get_the_latest_image_checked [⟨"h0", "processing_00000.jpg", 1⟩] =
      some none ∧
    get_the_latest_image_checked [⟨"hz", "z_99999999999999999999.jpg", 1⟩] =
      none ∧
    get_the_latest_image_checked
        [⟨"hx", "readme.txt", 1⟩, ⟨"h2", "processing_00002.jpg", 1⟩] =
      get_the_latest_image_checked
        ([⟨"hx", "readme.txt", 1⟩, ⟨"h2", "processing_00002.jpg", 1⟩].filter
          (fun h => !(extractedDigits h.name).isEmpty)) :=
  ⟨(C3_resolver_selection
      [⟨"h1", "processing_00001.jpg", 1⟩, ⟨"h3", "processing_00003.jpg", 1⟩,
       ⟨"hx", "readme.txt", 1⟩] (by decide)).2.1
      ⟨"h3", "processing_00003.jpg", 1⟩ (by decide) (by decide) (by decide)
      (by decide),
   (C3_resolver_selection [⟨"h0", "processing_00000.jpg", 1⟩] (by decide)).1
      (by decide),
   (C3_resolver_selection [⟨"hz", "z_99999999999999999999.jpg", 1⟩]
      (by decide)).2.2.1 ⟨"hz", "z_99999999999999999999.jpg", 1⟩ (by decide)
      (by decide) (by decide),
   (C3_resolver_selection
      [⟨"hx", "readme.txt", 1⟩, ⟨"h2", "processing_00002.jpg", 1⟩]
      (by decide)).2.2.2⟩

/-- C6 counterexample: creation times are nanosecond-precise, but the cleanup
compares elapsed times in whole milliseconds.  With the clock at 1000001 ns,
an entry created at 1000000 ns is strictly older than the just-saved file
created at 1000001 ns, yet both elapsed times truncate to 0 ms, so the entry
is not deleted — the claim requires every strictly older entry deleted. -/
theorem C6_counterexample :
    clear_previous_pollens 1000001 [("old", 1000000)] 1000001 = [] ∧
    (1000000 : Nat) < 1000001 :=
  ⟨rfl, by decide⟩

/-- C6 (amended): with all creation times taken in nanoseconds and compared
through elapsed whole milliseconds, the cleanup (1) never deletes an entry at
least as new as the just-persisted artifact A — in particular never A itself
(an entry with A's creation time, under distinct paths) — and (2) deletes
every entry whose elapsed milliseconds strictly exceed A's elapsed
milliseconds, i.e. every entry older than A at millisecond granularity. -/
theorem C6_retention_millis (now cur : Nat) (entries : List (String × Nat)) :
    (∀ e ∈ entries, cur ≤ e.2 → deleteCond now cur e.2 = false) ∧
    ((entries.map Prod.fst).Nodup → ∀ e ∈ entries, cur ≤ e.2 →
        e.1 ∉ clear_previous_pollens now entries cur) ∧
    (∀ e ∈ entries, (now - cur) / 1000000 < (now - e.2) / 1000000 →
        e.1 ∈ clear_previous_pollens now entries cur) := by
  have hcond : ∀ t : Nat, cur ≤ t → deleteCond now cur t = false := by
    intro t ht
    have hsub : now - t ≤ now - cur := Nat.sub_le_sub_left ht now
    have hdiv : (now - t) / 1000000 ≤ (now - cur) / 1000000 :=
      Nat.div_le_div_right hsub
    simp only [deleteCond, decide_eq_false_iff_not]
    exact Nat.not_lt.mpr hdiv
  refine ⟨fun e _ he => hcond e.2 he, ?_, ?_⟩
  · intro hnd e hmem he hcontra
    unfold clear_previous_pollens at hcontra
    rcases List.mem_map.mp hcontra with ⟨e', hmem', heq⟩
    have he' : e' ∈ entries := (List.mem_filter.mp hmem').1
    have hc' : deleteCond now cur e'.2 = true := by
      simpa using (List.mem_filter.mp hmem').2
    have hinj := List.inj_on_of_nodup_map hnd he' hmem heq
    rw [hinj] at hc'
    rw [hcond e.2 he] at hc'
    exact Bool.false_ne_true hc'
  · intro e hmem hlt
    unfold clear_previous_pollens
    refine List.mem_map.mpr ⟨e, List.mem_filter.mpr ⟨hmem, ?_⟩, rfl⟩
    simpa [deleteCond] using hlt

/-- Witness for C6: clock at 5000000 ns, artifact A saved at 3000000 ns; the
entry created at 1000000 ns (2 elapsed ms > 0 elapsed ms) is deleted, the
entry with A's own creation time is not. -/
theorem C6_witness :
    "a" ∈ clear_previous_pollens 5000000 [("a", 1000000), ("b", 3000000)] 3000000 ∧
    "b" ∉ clear_previous_pollens 5000000 [("a", 1000000), ("b", 3000000)] 3000000 :=
  ⟨(C6_retention_millis 5000000 3000000 [("a", 1000000), ("b", 3000000)]).2.2
      ("a", 1000000) (by decide) (by decide),
   (C6_retention_millis 5000000 3000000 [("a", 1000000), ("b", 3000000)]).2.1
      (by decide) ("b", 3000000) (by decide) (by decide)⟩

/-- C1: evaluation of the code at the failing input.  In a non-attach run the
job `"u1"` is applied by the first `Done` event — and `remove_entry`d in the
same iteration, so the `OnceSetAsWallpaper` filtering arm (whose comment says
it filters duplicate done messages) can never see it.  Delivering the same
`Done` message again therefore re-creates the entry and persists the artifact
a second time: the run succeeds and the effect trace holds two `save`
actions, where the claim requires no new artifact for the duplicate. -/
theorem C1_duplicate_done_after_apply_repersists :
    (runLoop false "app" ⟨[], none⟩
        [(sampleDoneMsg, sampleEnv), (sampleDoneMsg, sampleEnv)]).1 = none ∧
    (runLoop false "app" ⟨[], none⟩
        [(sampleDoneMsg, sampleEnv), (sampleDoneMsg, sampleEnv)]).2.1 = ⟨[], none⟩ ∧
    ((runLoop false "app" ⟨[], none⟩
        [(sampleDoneMsg, sampleEnv), (sampleDoneMsg, sampleEnv)]).2.2.filter
      (fun e => match e with | .save _ _ => true | _ => false)) =
      [.save "app/u1_processing_00003.jpg" "ha",
       .save "app/u1_processing_00003.jpg" "ha"] :=
  ⟨rfl, rfl, rfl⟩

/-- C2 counterexample: attach mode with `"j1"` occupying the attached slot.
An event for the different job `"u1"` is not a no-op: the registry gains an
entry for `"u1"` and the iteration performs the uuid resolution, both
metadata fetches and the output listing — only the artifact download is
skipped.  The claim asserts no registry mutation and no I/O at all. -/
theorem C2_counterexample :
    processEvent true "app" ⟨[], some "j1"⟩ sampleProcMsg sampleEnv =
      ⟨none,
       ⟨[("u1", PollenInfo.with_status "u1" .ProcessingPollen "QmX" none none
          .Processing)], some "j1"⟩,
       [.blockStat "QmX/input", .catTextInput "u1", .catModel "u1",
        .fileLs "/ipfs/QmX/output"]⟩ := rfl

/-- Effect classifier: `true` for effects that neither persist an artifact
nor apply it as the wallpaper. -/
def noPersist (e : Effect) : Bool :=
  match e with
  | .save _ _ => false
  | .setWallpaper _ => false
  | _ => true

/-- While a job `a` occupies the attach slot, the listing stage of an event
for a different job `u` performs no persist and leaves the slot unchanged. -/
theorem listingStage_other_job (appFolder : String) (st : LoopState)
    (u hash : String) (env : RemoteEnv) (fx : List Effect) (a : String)
    (hslot : st.pollen_uuid_to_attach = some a) (hne : u ≠ a)
    (hfx : fx.all noPersist = true) :
    (listingStage true appFolder st u hash env fx).fx.all noPersist = true ∧
    (listingStage true appFolder st u hash env fx).state.pollen_uuid_to_attach =
      some a := by
  have hfx1 : (fx ++ [Effect.fileLs ("/ipfs/" ++ hash ++ "/output")]).all
      noPersist = true := by
    rw [List.all_append, hfx]; rfl
  unfold listingStage
  rcases hfl : env.file_ls with _ | links
  · simp only [hfl]
    exact ⟨hfx1, hslot⟩
  · simp only [hfl]
    rcases hlat : get_the_latest_image_according_to_numbering links with _ | header
    · simp only [hlat]
      exact ⟨hfx1, hslot⟩
    · simp only [hlat]
      rcases hget : rget st.pollens u with _ | pollen
      · simp only [hget]
        exact ⟨hfx1, hslot⟩
      · simp only [hget]
        cases hstat : pollen.status with
        | Processing =>
          simp only [hstat, processingBranch, hslot, Option.isNone_some,
            Bool.false_eq_true, if_false, if_true, if_neg hne]
          exact ⟨hfx1, trivial⟩
        | Done =>
          simp only [hstat, doneBranch, hslot, if_true, if_neg hne]
          exact ⟨hfx1, trivial⟩
        | OnceSetAsWallpaper =>
          simp only [hstat]
          exact ⟨hfx1, hslot⟩

/-- Same frame property one stage up, from topic classification on. -/
theorem processTopic_other_job (appFolder : String) (st : LoopState)
    (hash : String) (topic : Topic) (env : RemoteEnv) (a u : String)
    (hslot : st.pollen_uuid_to_attach = some a)
    (hbs : env.block_stat = some u) (hne : u ≠ a) :
    (processTopic true appFolder st hash topic env).fx.all noPersist = true ∧
    (processTopic true appFolder st hash topic env).state.pollen_uuid_to_attach =
      some a := by
  unfold processTopic
  by_cases ht : topic = .Unknown
  · simp [ht, hslot]
  · simp only [if_neg ht, hbs]
    rcases hreg : registryUpdate st.pollens u topic hash env.model_type
        env.text_input with _ | r1 | r1
    · simp [hreg, hslot, noPersist]
    · simp [hreg, hslot, noPersist]
    · simp only [hreg]
      exact listingStage_other_job appFolder ⟨r1, st.pollen_uuid_to_attach⟩ u hash
        env _ a hslot hne (by rfl)

/-- C2 (amended): while a job `a` occupies the attached slot, an event whose
resolved job identifier `u` differs from `a` never downloads or persists an
artifact, never sets the wallpaper, and never changes the attach slot — but
it is not a complete no-op: the counterexample shows the registry is still
mutated and the metadata fetch and output listing still happen. -/
theorem C2_nonattached_event_no_persist (appFolder : String) (st : LoopState)
    (input : Except Unit PubsubMsg) (env : RemoteEnv) (a u : String)
    (hslot : st.pollen_uuid_to_attach = some a)
    (hbs : env.block_stat = some u) (hne : u ≠ a) :
    (processEvent true appFolder st input env).fx.all noPersist = true ∧
    (processEvent true appFolder st input env).state.pollen_uuid_to_attach =
      some a := by
  cases input with
  | error e => simp [processEvent, hslot]
  | ok res =>
    cases hdata : res.data with
    | none => simp [processEvent, hdata, hslot]
    | some raw =>
      cases hdec : decode_msg raw with
      | error u' => simp [processEvent, hdata, hdec, hslot]
      | ok msg =>
        by_cases hhb : strContains msg HEARTBEAT
        · simp [processEvent, hdata, hdec, hhb, hslot]
        · cases htids : res.topic_ids with
          | none => simp [processEvent, hdata, hdec, hhb, htids, hslot]
          | some ts =>
            cases hts : get_current_topic ts with
            | none => simp [processEvent, hdata, hdec, hhb, htids, hts, hslot]
            | some t0 =>
              have hred : processEvent true appFolder st (.ok res) env =
                  processTopic true appFolder st msg
                    (if t0 = "done_pollen" then Topic.DonePollen
                     else if t0 = "processing_pollen" then Topic.ProcessingPollen
                     else Topic.Unknown) env := by
                simp [processEvent, hdata, hdec, hhb, htids, hts]
              rw [hred]
              exact processTopic_other_job appFolder st msg _ env a u hslot hbs hne

/-- Witness for C2: the counterexample's event — attach slot held by `"j1"`,
processing event resolving to `"u1"` — performs no persist effect and leaves
the slot on `"j1"`. -/
theorem C2_witness :
    (processEvent true "app" ⟨[], some "j1"⟩ sampleProcMsg sampleEnv).fx.all
      noPersist = true ∧
    (processEvent true "app" ⟨[], some "j1"⟩
        sampleProcMsg sampleEnv).state.pollen_uuid_to_attach = some "j1" :=
  C2_nonattached_event_no_persist "app" ⟨[], some "j1"⟩ sampleProcMsg sampleEnv
    "j1" "u1" rfl rfl (by decide)

/-- A successful `Done`-branch apply ends the iteration without error and
with the job removed from the registry (`remove_entry`), provided the cleanup
either is skipped (no creation time) or succeeds. -/
theorem saveAndApply_done_removes (appFolder : String) (st : LoopState)
    (u : String) (hdr : IpfsHeader) (env : RemoteEnv) (fx : List Effect)
    (tOpt : Option Nat) (hsave : env.save_result = .ok tOpt)
    (hclear : tOpt = none ∨ env.clear_ok = true) :
    (saveAndApply appFolder st u hdr env fx true).err = none ∧
    rget (saveAndApply appFolder st u hdr env fx true).state.pollens u = none := by
  unfold saveAndApply
  simp only [hsave]
  rcases tOpt with _ | t
  · exact ⟨rfl, rget_rdel _ u⟩
  · rcases hclear with hnone | hok
    · exact absurd hnone (by simp)
    · simp only [hok]
      exact ⟨rfl, rget_rdel _ u⟩

/-- The `Processing`-branch apply (no status change) keeps the job's registry
entry and its status, whatever the save and cleanup outcomes. -/
theorem saveAndApply_keeps_entry (appFolder : String) (st : LoopState)
    (u : String) (hdr : IpfsHeader) (env : RemoteEnv) (fx : List Effect)
    (p : PollenInfo) (hp : rget st.pollens u = some p) :
    ∃ q, rget (saveAndApply appFolder st u hdr env fx false).state.pollens u =
      some q ∧ q.status = p.status := by
  have hupd : rget (rupdate st.pollens u (fun q =>
      { q with last_polled_evolution := some (polledFromHeader hdr) })) u =
      some { p with last_polled_evolution := some (polledFromHeader hdr) } := by
    rw [rget_rupdate, hp]; rfl
  unfold saveAndApply
  rcases hsr : env.save_result with e | tOpt
  · exact ⟨p, hp, rfl⟩
  · simp only [hsr]
    rcases tOpt with _ | t
    · exact ⟨_, hupd, rfl⟩
    · cases hc : env.clear_ok with
      | false => simp only [hc]; exact ⟨_, hupd, rfl⟩
      | true => simp only [hc]; exact ⟨_, hupd, rfl⟩

/-- The whole `Processing` status arm keeps the job's registry entry and its
status, in either mode and whatever the attach slot holds. -/
theorem processingBranch_keeps_entry (attach : Bool) (appFolder : String)
    (st : LoopState) (u : String) (hdr : IpfsHeader) (env : RemoteEnv)
    (fx : List Effect) (p : PollenInfo) (hp : rget st.pollens u = some p) :
    ∃ q, rget (processingBranch attach appFolder st u hdr env fx).state.pollens
      u = some q ∧ q.status = p.status := by
  unfold processingBranch
  cases attach with
  | false => exact ⟨p, hp, rfl⟩
  | true =>
    rcases hsl : st.pollen_uuid_to_attach with _ | a
    · simp only [hsl, Option.isNone_none, if_true]
      exact saveAndApply_keeps_entry appFolder _ u hdr env fx p hp
    · simp only [hsl, Option.isNone_some, Bool.false_eq_true, if_false]
      by_cases hua : u = a
      · simp only [if_pos hua]
        exact saveAndApply_keeps_entry appFolder _ u hdr env fx p hp
      · simp only [if_neg hua]
        exact ⟨p, hp, rfl⟩

/-- A failing artifact write makes `saveAndApply` abort the run with
`saveErr`, leaving the state as it was at the start of the apply block. -/
theorem saveAndApply_fail (appFolder : String) (st : LoopState) (u : String)
    (hdr : IpfsHeader) (env : RemoteEnv) (fx : List Effect) (isDone : Bool)
    (hsave : env.save_result = .error ()) :
    saveAndApply appFolder st u hdr env fx isDone =
      ⟨some .saveErr, st,
       fx ++ [Effect.save (appFolder ++ "/" ++ u ++ "_" ++ hdr.name) hdr.hash]⟩ := by
  unfold saveAndApply
  simp only [hsave]

/-- Projection lemma for `PollenInfo.with_status`. -/
theorem with_status_status (id : String) (topic : Topic) (hash : String)
    (mt : Option Model) (ti : Option String) (s : PollenStatus) :
    (PollenInfo.with_status id topic hash mt ti s).status = s := rfl

/-- A `Done` event for a job not at `OnceSetAsWallpaper` rewrites its
registry entry (or creates it) with status `Done` and falls through to the
listing stage. -/
theorem registryUpdate_done (r : Registry) (u hash : String)
    (mt : Option Model) (ti : Option String)
    (hst : ∀ p, rget r u = some p → p.status ≠ .OnceSetAsWallpaper) :
    ∃ v : PollenInfo, registryUpdate r u .DonePollen hash mt ti =
      .proceed (rput r u v) ∧ v.status = .Done := by
  unfold registryUpdate
  rcases hget : rget r u with _ | p
  · exact ⟨_, rfl, rfl⟩
  · cases hstat : p.status with
    | Processing =>
      refine ⟨{ p with
          topic := .DonePollen
          hash_of_current_iteration := hash
          model_type := mt
          text_input := ti
          status := .Done }, ?_, rfl⟩
      simp only [hstat]
    | Done =>
      refine ⟨{ p with
          topic := .DonePollen
          hash_of_current_iteration := hash
          model_type := mt
          text_input := ti
          status := .Done }, ?_, rfl⟩
      simp only [hstat]
    | OnceSetAsWallpaper => exact absurd hstat (hst p hget)

/-- C4 counterexample: attach mode, with `"u1"` tracked (status `Processing`)
and attached.  The `Done` event applies it — its status is set to
`AppliedOnce` (the save and wallpaper effects are in the trace) — and the
very same iteration `remove_entry`s it: the final registry is empty, where
the claim says a job at `AppliedOnce` is never removed in attach mode. -/
theorem C4_counterexample :
    processEvent true "app"
        ⟨[("u1", PollenInfo.with_status "u1" .ProcessingPollen "QmX" none none
            .Processing)], some "u1"⟩ sampleDoneMsg sampleEnv =
      ⟨none, ⟨[], none⟩,
       [.blockStat "QmX/input", .catTextInput "u1", .catModel "u1",
        .fileLs "/ipfs/QmX/output", .save "app/u1_processing_00003.jpg" "ha",
        .setWallpaper "app/u1_processing_00003.jpg", .clearPrev]⟩ := rfl

/-- C4 (amended): in both modes, the event that applies a job removes its
registry entry in the same iteration (so no entry ever survives an iteration
with status `AppliedOnce`), and a later `Processing` event for that job
re-creates a fresh entry with status `Processing`; the non-attach half of the
claim (immediate removal after apply) holds as stated.  First conjunct: a
`Done` event for a job not already at `OnceSetAsWallpaper`, with a resolvable
listing, a successful save and a successful (or skipped) cleanup — and, in
attach mode, an attach slot that is empty or holds this job — ends without
error with the job absent from the registry.  Second conjunct: a `Processing`
event for an untracked job leaves it registered with status `Processing`. -/
theorem C4_applied_job_removed_and_recreated :
    (∀ (attach : Bool) (appFolder : String) (st : LoopState) (raw msg : String)
        (tids : List String) (env : RemoteEnv) (u : String)
        (links : List IpfsHeader) (hdr : IpfsHeader) (tOpt : Option Nat),
      decode_msg raw = .ok msg → strContains msg HEARTBEAT = false →
      get_current_topic tids = some "done_pollen" →
      env.block_stat = some u →
      (∀ p, rget st.pollens u = some p → p.status ≠ .OnceSetAsWallpaper) →
      env.file_ls = some links →
      get_the_latest_image_according_to_numbering links = some hdr →
      env.save_result = .ok tOpt → (tOpt = none ∨ env.clear_ok = true) →
      (attach = true → st.pollen_uuid_to_attach = none ∨
        st.pollen_uuid_to_attach = some u) →
      (processEvent attach appFolder st (.ok ⟨some raw, some tids⟩) env).err =
        none ∧
      rget (processEvent attach appFolder st
        (.ok ⟨some raw, some tids⟩) env).state.pollens u = none) ∧
    (∀ (attach : Bool) (appFolder : String) (st : LoopState) (raw msg : String)
        (tids : List String) (env : RemoteEnv) (u : String),
      decode_msg raw = .ok msg → strContains msg HEARTBEAT = false →
      get_current_topic tids = some "processing_pollen" →
      env.block_stat = some u → rget st.pollens u = none →
      ∃ p, rget (processEvent attach appFolder st
          (.ok ⟨some raw, some tids⟩) env).state.pollens u = some p ∧
        p.status = .Processing) := by
  constructor
  · intro attach appFolder st raw msg tids env u links hdr tOpt hdec hhb hhd hbs
      hst hls hlat hsave hclear hgate
    obtain ⟨v, hreg, hv⟩ :=
      registryUpdate_done st.pollens u msg env.model_type env.text_input hst
    have hred : processEvent attach appFolder st (.ok ⟨some raw, some tids⟩) env =
        doneBranch attach appFolder ⟨rput st.pollens u v, st.pollen_uuid_to_attach⟩
          u hdr env
          [Effect.blockStat (msg ++ "/input"), Effect.catTextInput u,
           Effect.catModel u, Effect.fileLs ("/ipfs/" ++ msg ++ "/output")] := by
      simp [processEvent, processTopic, listingStage, hdec, hhb, hhd, hbs, hreg,
        hls, hlat, rget_rput, hv]
    rw [hred]
    cases attach with
    | false =>
      simp only [doneBranch, Bool.false_eq_true, if_false]
      exact saveAndApply_done_removes appFolder _ u hdr env _ tOpt hsave hclear
    | true =>
      rcases hgate rfl with hs | hs
      · simp only [doneBranch, hs, if_true]
        exact saveAndApply_done_removes appFolder _ u hdr env _ tOpt hsave hclear
      · simp only [doneBranch, hs, if_true, if_pos rfl]
        exact saveAndApply_done_removes appFolder _ u hdr env _ tOpt hsave hclear
  · intro attach appFolder st raw msg tids env u hdec hhb hhd hbs hmiss
    have hreg : registryUpdate st.pollens u .ProcessingPollen msg env.model_type
        env.text_input = .proceed (rput st.pollens u (PollenInfo.with_status u
          .ProcessingPollen msg env.model_type env.text_input .Processing)) := by
      unfold registryUpdate
      simp only [hmiss]
    have hred : processEvent attach appFolder st (.ok ⟨some raw, some tids⟩) env =
        listingStage attach appFolder
          ⟨rput st.pollens u (PollenInfo.with_status u .ProcessingPollen msg
            env.model_type env.text_input .Processing), st.pollen_uuid_to_attach⟩
          u msg env
          [Effect.blockStat (msg ++ "/input"), Effect.catTextInput u,
           Effect.catModel u] := by
      simp [processEvent, processTopic, hdec, hhb, hhd, hbs, hreg]
    rw [hred]
    have hput : rget (rput st.pollens u (PollenInfo.with_status u
        .ProcessingPollen msg env.model_type env.text_input .Processing)) u =
        some (PollenInfo.with_status u .ProcessingPollen msg env.model_type
          env.text_input .Processing) := rget_rput _ _ _
    unfold listingStage
    rcases hfl : env.file_ls with _ | links
    · simp only [hfl]
      exact ⟨_, hput, rfl⟩
    · simp only [hfl]
      rcases hlat : get_the_latest_image_according_to_numbering links with _ | hdr
      · simp only [hlat]
        exact ⟨_, hput, rfl⟩
      · simp only [hlat, hput, with_status_status]
        obtain ⟨q, hq, hqs⟩ := processingBranch_keeps_entry attach appFolder
          ⟨rput st.pollens u (PollenInfo.with_status u .ProcessingPollen msg
            env.model_type env.text_input .Processing), st.pollen_uuid_to_attach⟩
          u hdr env ([Effect.blockStat (msg ++ "/input"), Effect.catTextInput u,
            Effect.catModel u] ++ [Effect.fileLs ("/ipfs/" ++ msg ++ "/output")])
          (PollenInfo.with_status u .ProcessingPollen msg env.model_type
            env.text_input .Processing) hput
        exact ⟨q, hq, hqs.trans rfl⟩

/-- Witness for C4: both conjuncts at the concrete inputs of the
counterexample — the applied job `"u1"` is gone from the registry even in
attach mode, and a processing event for the now-unknown `"u1"` re-creates it
with status `Processing`. -/
theorem C4_witness :
    ((processEvent true "app" ⟨[], some "u1"⟩ sampleDoneMsg sampleEnv).err =
        none ∧
     rget (processEvent true "app" ⟨[], some "u1"⟩ sampleDoneMsg
        sampleEnv).state.pollens "u1" = none) ∧
    (∃ p, rget (processEvent false "app" ⟨[], none⟩ sampleProcMsg
        sampleEnv).state.pollens "u1" = some p ∧ p.status = .Processing) :=
  ⟨C4_applied_job_removed_and_recreated.1 true "app" ⟨[], some "u1"⟩ "UW1Y" "QmX"
      ["done_pollen"] sampleEnv "u1" [sampleHeader] sampleHeader (some 1000)
      rfl rfl rfl rfl (fun _ h => Option.noConfusion h) rfl rfl rfl (Or.inr rfl)
      (fun _ => Or.inr rfl),
   C4_applied_job_removed_and_recreated.2 false "app" ⟨[], none⟩ "UW1Y" "QmX"
      ["processing_pollen"] sampleEnv "u1" rfl rfl rfl rfl rfl⟩

/-- C5 counterexample: the artifact write of the first event fails, and the
run aborts with `saveErr` — the second, well-formed event contributes nothing
to the final state or effect trace, where the claim requires the loop to
continue with subsequent events. -/
theorem C5_counterexample :
    runLoop false "app" ⟨[], none⟩
        [(sampleDoneMsg, sampleEnvSaveFail), (sampleProcMsg, sampleEnv)] =
      (some .saveErr,
       ⟨[("u1", PollenInfo.with_status "u1" .DonePollen "QmX" none none .Done)],
        none⟩,
       [.blockStat "QmX/input", .catTextInput "u1", .catModel "u1",
        .fileLs "/ipfs/QmX/output", .save "app/u1_processing_00003.jpg" "ha"]) := rfl

/-- C5 (amended): a failing artifact write is fatal for the whole run, not
just the current job's round: the iteration ends with `saveErr`, and
prefixing it to any queue of further events makes the loop return that error
with the remaining events unprocessed.  The non-corruption half of the claim
holds: at the abort the job's entry still has its pre-persist status `Done` —
status is advanced to `AppliedOnce` only after a successful persist. -/
theorem C5_save_failure_fatal (appFolder : String) (st : LoopState)
    (raw msg : String) (tids : List String) (env : RemoteEnv) (u : String)
    (links : List IpfsHeader) (hdr : IpfsHeader)
    (hdec : decode_msg raw = .ok msg)
    (hhb : strContains msg HEARTBEAT = false)
    (hhd : get_current_topic tids = some "done_pollen")
    (hbs : env.block_stat = some u)
    (hmiss : rget st.pollens u = none)
    (hls : env.file_ls = some links)
    (hlat : get_the_latest_image_according_to_numbering links = some hdr)
    (hsave : env.save_result = .error ()) :
    (processEvent false appFolder st (.ok ⟨some raw, some tids⟩) env).err =
      some .saveErr ∧
    (∃ p, rget (processEvent false appFolder st (.ok ⟨some raw, some tids⟩)
        env).state.pollens u = some p ∧ p.status = .Done) ∧
    (∀ rest, runLoop false appFolder st
        ((.ok ⟨some raw, some tids⟩, env) :: rest) =
      (some .saveErr,
       (processEvent false appFolder st (.ok ⟨some raw, some tids⟩) env).state,
       (processEvent false appFolder st (.ok ⟨some raw, some tids⟩) env).fx)) := by
  have hreg : registryUpdate st.pollens u .DonePollen msg env.model_type
      env.text_input = .proceed (rput st.pollens u (PollenInfo.with_status u
        .DonePollen msg env.model_type env.text_input .Done)) := by
    unfold registryUpdate
    simp only [hmiss]
  have hout : processEvent false appFolder st (.ok ⟨some raw, some tids⟩) env =
      ⟨some .saveErr,
       ⟨rput st.pollens u (PollenInfo.with_status u .DonePollen msg
          env.model_type env.text_input .Done), st.pollen_uuid_to_attach⟩,
       [Effect.blockStat (msg ++ "/input"), Effect.catTextInput u,
        Effect.catModel u, Effect.fileLs ("/ipfs/" ++ msg ++ "/output"),
        Effect.save (appFolder ++ "/" ++ u ++ "_" ++ hdr.name) hdr.hash]⟩ := by
    simp [processEvent, processTopic, listingStage, doneBranch, saveAndApply,
      hdec, hhb, hhd, hbs, hreg, hls, hlat, hsave, rget_rput, with_status_status]
  refine ⟨by rw [hout], ⟨_, by rw [hout]; exact rget_rput _ _ _, rfl⟩, ?_⟩
  intro rest
  rw [runLoop, hout]

/-- Witness for C5: the counterexample's inputs — the failing save ends the
iteration with `saveErr` and a two-event queue collapses to the first
iteration's outcome. -/
theorem C5_witness :
    (processEvent false "app" ⟨[], none⟩ sampleDoneMsg sampleEnvSaveFail).err =
      some .saveErr ∧
    runLoop false "app" ⟨[], none⟩
        [(sampleDoneMsg, sampleEnvSaveFail), (sampleProcMsg, sampleEnv)] =
      (some .saveErr,
       (processEvent false "app" ⟨[], none⟩ sampleDoneMsg sampleEnvSaveFail).state,
       (processEvent false "app" ⟨[], none⟩ sampleDoneMsg sampleEnvSaveFail).fx) :=
  ⟨(C5_save_failure_fatal "app" ⟨[], none⟩ "UW1Y" "QmX" ["done_pollen"]
      sampleEnvSaveFail "u1" [sampleHeader] sampleHeader
      rfl rfl rfl rfl rfl rfl rfl rfl).1,
   (C5_save_failure_fatal "app" ⟨[], none⟩ "UW1Y" "QmX" ["done_pollen"]
      sampleEnvSaveFail "u1" [sampleHeader] sampleHeader
      rfl rfl rfl rfl rfl rfl rfl rfl).2.2 [(sampleProcMsg, sampleEnv)]⟩

end PollenWall
